import Mathlib

/-!
Shallow embedding of `src/GraphGenerator.py` (PHPAuto): a post-processing
pipeline that turns per-experiment CSV result tables into chart artifacts.
Tables are modelled as a column list plus rows of (column, value) cells;
cell values are strings, exact rationals (for the CSV's numeric columns),
or NaN (pandas missing values).  Each chart builder is embedded as a
function from its input table to `Except String (Option Chart)`:
`.error e` models an uncaught Python exception (KeyError / ValueError /
TypeError / AttributeError) aborting the run, `.ok none` models the
builder skipping its chart with a diagnostic, and `.ok (some c)` models a
produced chart artifact described by the data series the source plots.
-/

/-- A cell value of a loaded table: a string, a numeric value (the CSV
numbers, modelled exactly as rationals), or a missing value (NaN). -/
inductive Value : Type
  | str (s : String)
  | num (q : ℚ)
  | nan
deriving DecidableEq

/-- A row is the list of its (column name, value) cells. -/
abbrev Row := List (String × Value)

/-- A loaded DataFrame: the column names and the rows. -/
structure Table where
  cols : List String
  rows : List Row
deriving DecidableEq

deriving instance DecidableEq for Except

/-- Cell lookup inside a row; a cell absent from the row reads as NaN
(pandas fills missing cells of an existing column with NaN). -/
def cell (r : Row) (c : String) : Value :=
  match r.find? (fun p => p.1 == c) with
  | some p => p.2
  | none => Value.nan

/-- Is this value a (non-missing) number? -/
def Value.isNum : Value → Bool
  | num _ => true
  | _ => false

/-- The numeric content of a value, if any. -/
def Value.toQ? : Value → Option ℚ
  | num q => some q
  | _ => none

/-- Rational addition computed through `mkRat` (kernel-reducible; proved
equal to `+` on `ℚ` below). -/
def qadd (a b : ℚ) : ℚ :=
  mkRat (a.num * b.den + b.num * a.den) (a.den * b.den)

/-- Rational multiplication computed through `mkRat` (proved equal to `*`
on `ℚ` below). -/
def qmul (a b : ℚ) : ℚ :=
  mkRat (a.num * b.num) (a.den * b.den)

/-- Rational inverse computed through `mkRat` (proved equal to `⁻¹` on
`ℚ` below). -/
def qinv (b : ℚ) : ℚ :=
  mkRat (b.den * b.num.sign) b.num.natAbs

/-- Rational division computed through `mkRat` (proved equal to `/` on
`ℚ` below). -/
def qdiv (a b : ℚ) : ℚ :=
  qmul a (qinv b)

/-- Elementwise division as pandas performs it on numeric Series
(`series / 1e6` etc.); a missing operand yields a missing result. -/
def vdiv : Value → Value → Value
  | Value.num a, Value.num b => if b = 0 then Value.nan else Value.num (qdiv a b)
  | _, _ => Value.nan

/-- Elementwise multiplication on values, missing-propagating. -/
def vmul : Value → Value → Value
  | Value.num a, Value.num b => Value.num (qmul a b)
  | _, _ => Value.nan

/-- Binary maximum skipping missing values, as `Series.max` does. -/
def vmax : Value → Value → Value
  | Value.num a, Value.num b => Value.num (max a b)
  | Value.num a, _ => Value.num a
  | _, Value.num b => Value.num b
  | _, _ => Value.nan

/-- `Series.max`: the maximum of the non-missing values (NaN when none). -/
def seriesMax (l : List Value) : Value :=
  l.foldr vmax Value.nan

/-- `Series.dropna`: keep the non-missing (numeric) values, in order. -/
def dropna (l : List Value) : List Value :=
  l.filter Value.isNum

/-- `Series.mean`: arithmetic mean of the non-missing values; NaN when the
series holds no non-missing value (pandas skips NaN by default). -/
def seriesMean (l : List Value) : Value :=
  let nums := l.filterMap Value.toQ?
  if nums.isEmpty then Value.nan
  else Value.num (qdiv (nums.foldr qadd 0) (mkRat (nums.length : ℤ) 1))

/-- First-occurrence deduplication, as `Series.unique` returns values. -/
def uniqueAux {α : Type} [DecidableEq α] (seen : List α) : List α → List α
  | [] => []
  | v :: t => if v ∈ seen then uniqueAux seen t else v :: uniqueAux (v :: seen) t

/-- `Series.unique`: the distinct values in first-occurrence order. -/
def uniqueList {α : Type} [DecidableEq α] (l : List α) : List α :=
  uniqueAux [] l

/-- The values of one column, over all rows. -/
def colVals (t : Table) (c : String) : List Value :=
  t.rows.map (fun r => cell r c)

/-- The row passes the `solver_status == 'OPTIMAL'` filter. -/
def isOpt (r : Row) : Bool :=
  decide (cell r "solver_status" = Value.str "OPTIMAL")

/-- The OPTIMAL rows of a table (`df[df['solver_status'] == 'OPTIMAL']`). -/
def optRows (t : Table) : List Row :=
  t.rows.filter isOpt

/-- `df[df['solver_status'] == 'OPTIMAL']` at the head of every builder:
continues with the filtered table, or raises KeyError when the status
column is absent from the table. -/
def withOpt {α : Type} (t : Table) (k : Table → Except String α) : Except String α :=
  if "solver_status" ∈ t.cols then k ⟨t.cols, optRows t⟩
  else .error "KeyError: solver_status"

/-- An unguarded `df[c]` column access: continues when the column exists,
raises KeyError otherwise. -/
def needCol {α : Type} (t : Table) (c : String) (k : Except String α) : Except String α :=
  if c ∈ t.cols then k else .error ("KeyError: " ++ c)

/-- Comparison key used by `sort_values(c)`: the numeric content of the
cell, missing values ordered last in either direction (pandas
`na_position='last'`). -/
def vleB (asc : Bool) (v w : Value) : Bool :=
  match v.toQ?, w.toQ? with
  | some a, some b => if asc then decide (a ≤ b) else decide (b ≤ a)
  | some _, none => true
  | none, some _ => false
  | none, none => true

/-- Row ordering by one column, ascending or descending. -/
def keyLe (c : String) (asc : Bool) (r₁ r₂ : Row) : Prop :=
  vleB asc (cell r₁ c) (cell r₂ c) = true

instance (c : String) (asc : Bool) : DecidableRel (keyLe c asc) :=
  fun _ _ => inferInstanceAs (Decidable (_ = true))

instance (c : String) (asc : Bool) : IsTotal Row (keyLe c asc) :=
  ⟨fun r₁ r₂ => by
    unfold keyLe vleB
    rcases (cell r₁ c).toQ? with _ | a <;> rcases (cell r₂ c).toQ? with _ | b <;>
      rcases asc with _ | _ <;> simp <;> exact le_total _ _⟩

instance (c : String) (asc : Bool) : IsTrans Row (keyLe c asc) :=
  ⟨fun r₁ r₂ r₃ h₁ h₂ => by
    unfold keyLe vleB at *
    revert h₁ h₂
    rcases (cell r₁ c).toQ? with _ | a <;> rcases (cell r₂ c).toQ? with _ | b <;>
      rcases (cell r₃ c).toQ? with _ | d <;> rcases asc with _ | _ <;> simp <;>
      intro h₁ h₂ <;> first
      | exact le_trans h₁ h₂
      | exact le_trans h₂ h₁⟩

instance : LeftCommutative vmax :=
  ⟨fun a b c => by cases a <;> cases b <;> cases c <;> simp [vmax, max_left_comm, max_comm]⟩

/-- `df.sort_values(c, ascending=asc)`: rows reordered by the column key. -/
def sortRows (c : String) (asc : Bool) (rows : List Row) : List Row :=
  List.insertionSort (keyLe c asc) rows

/-- Ordering on (extracted size, row) pairs for `sort_values('bom_size')`. -/
def pairLe (p q : ℚ × Row) : Prop := p.1 ≤ q.1

instance : DecidableRel pairLe := fun p q => inferInstanceAs (Decidable (p.1 ≤ q.1))

instance : IsTotal (ℚ × Row) pairLe := ⟨fun p q => le_total p.1 q.1⟩

instance : IsTrans (ℚ × Row) pairLe := ⟨fun _ _ _ h₁ h₂ => le_trans h₁ h₂⟩

/-- Sort the (size, row) pairs ascending by extracted size. -/
def sortSized (l : List (ℚ × Row)) : List (ℚ × Row) :=
  List.insertionSort pairLe l

/-- Read a maximal digit run, base-ten, returning the accumulated value. -/
def readNat (acc : ℕ) : List Char → ℕ
  | [] => acc
  | c :: t => if c.isDigit then readNat (acc * 10 + (c.toNat - 48)) t else acc

/-- `re.search(r'bom_(\d+)', s)`: the leftmost occurrence of `bom_`
followed by at least one digit; captures the maximal digit run. -/
def findBom : List Char → Option ℕ
  | [] => none
  | c :: t =>
    match c :: t with
    | 'b' :: 'o' :: 'm' :: '_' :: d :: rest =>
      if d.isDigit then some (readNat 0 (d :: rest)) else findBom t
    | _ => findBom t

/-- `df['instance_id'].str.extract(r'bom_(\d+)').astype(float)` applied to
one cell: the captured number, or missing when the pattern does not match
or the cell is not a string. -/
def vExtract : Value → Option ℚ
  | Value.str s => (findBom s.data).map (fun n => (n : ℚ))
  | _ => none

/-- Attach the extracted BOM size to each row whose identifier matches the
capture pattern; rows with no match are dropped
(`dropna(subset=['bom_size'])`). -/
def sizedRows (rows : List Row) : List (ℚ × Row) :=
  rows.filterMap (fun r => (vExtract (cell r "instance_id")).map (fun q => (q, r)))

/-- Substring test on character lists (Python's `in` on strings). -/
def hasSubL (pat : List Char) : List Char → Bool
  | [] => pat.isEmpty
  | c :: t => pat.isPrefixOf (c :: t) || hasSubL pat t

/-- Python `pat in hay` substring containment. -/
def strHas (hay pat : String) : Bool :=
  hasSubL pat.data hay.data

/-- ASCII lowercasing of one character, as `str.lower` acts on the
ASCII instance identifiers. -/
def lowerChar (c : Char) : Char :=
  if 'A' ≤ c ∧ c ≤ 'Z' then Char.ofNat (c.toNat + 32) else c

/-- Case-insensitive occurrence of a (lowercase) pattern in an identifier
(`pat in x.lower()`). -/
def csOccurs (x pat : String) : Bool :=
  hasSubL pat.data (x.data.map lowerChar)

/-- The topology classification lambda of `plot_topology_comparison`
(source lines 534-536): `'Multi-Level' if 'ml' in x.lower() else
('Parallel' if 'par' in x.lower() else 'Standard')`. -/
def classifyTopology (s : String) : String :=
  if csOccurs s "ml" then "Multi-Level"
  else if csOccurs s "par" then "Parallel"
  else "Standard"

/-- The cap-percentage derivation of `plot_cap_sweep` (source line 299):
`(inst_df['cap_value'] / baseline_emis) * 100`. -/
def capPct (c b : Value) : Value :=
  vmul (vdiv c b) (Value.num 100)

/-- The rows of one instance group (`df[df['instance_id'] == inst]`). -/
def groupRows (ft : Table) (inst : Value) : List Row :=
  ft.rows.filter (fun r => decide (cell r "instance_id" = inst))

/-- The first row's cell of a column (`inst_df[c].iloc[0]`); NaN on an
empty frame (the guard `len(inst_df) > 1` rules that case out). -/
def headCell (g : List Row) (c : String) : Value :=
  match g with
  | [] => Value.nan
  | r :: _ => cell r c

/-- Figure 1 chart description: (extracted BOM size, runtime) points in
plot order. -/
abbrev RuntimeChart := List (ℚ × Value)

instance : DecidableEq RuntimeChart := inferInstance

/-- `plot_scalability_runtime` after the OPTIMAL filter (source lines
148-179): skip on an empty frame; extract `bom_size` from `instance_id`,
drop non-matching rows, sort ascending; `max(df['bom_size'])` on line 172
raises ValueError when no row survived the dropna. -/
def plot_scalability_runtime_core (ft : Table) : Except String (Option RuntimeChart) :=
  if ft.rows.isEmpty then .ok none
  else
    needCol ft "instance_id" (
      let rows2 := sortSized (sizedRows ft.rows)
      needCol ft "runtime_sec" (
        if rows2.isEmpty then .error "ValueError: max() arg is an empty sequence"
        else .ok (some (rows2.map (fun p => (p.1, cell p.2 "runtime_sec"))))))

/-- Figure 1 builder (source lines 143-179). -/
def plot_scalability_runtime (t : Table) : Except String (Option RuntimeChart) :=
  withOpt t plot_scalability_runtime_core

/-- Figure 2 chart description: (BOM size, emissions / 1e6) bars in plot
order. -/
abbrev EmisChart := List (ℚ × Value)

/-- `plot_scalability_emissions` after the OPTIMAL filter (source lines
186-205): skip when empty or `total_emissions` is absent; dropna on both
the extracted size and `total_emissions`, sort ascending, bar the scaled
values. -/
def plot_scalability_emissions_core (ft : Table) : Except String (Option EmisChart) :=
  if ft.rows.isEmpty ∨ "total_emissions" ∉ ft.cols then .ok none
  else
    needCol ft "instance_id" (
      let rows2 := sortSized ((sizedRows ft.rows).filter (fun p => (cell p.2 "total_emissions").isNum))
      .ok (some (rows2.map (fun p => (p.1, vdiv (cell p.2 "total_emissions") (Value.num 1000000))))))

/-- Figure 2 builder (source lines 181-205). -/
def plot_scalability_emissions (t : Table) : Except String (Option EmisChart) :=
  withOpt t plot_scalability_emissions_core

/-- Figure 3 chart description: (BOM size, buffer count) points. -/
abbrev BuffersChart := List (ℚ × Value)

/-- `plot_scalability_buffers` after the OPTIMAL filter (source lines
212-236): skip when empty or `buffer_count` is absent; dropna on size and
buffer count, sort ascending; `np.polyfit` on line 223 raises on empty
vectors. -/
def plot_scalability_buffers_core (ft : Table) : Except String (Option BuffersChart) :=
  if ft.rows.isEmpty ∨ "buffer_count" ∉ ft.cols then .ok none
  else
    needCol ft "instance_id" (
      let rows2 := sortSized ((sizedRows ft.rows).filter (fun p => (cell p.2 "buffer_count").isNum))
      if rows2.isEmpty then .error "TypeError: expected non-empty vector for x"
      else .ok (some (rows2.map (fun p => (p.1, cell p.2 "buffer_count")))))

/-- Figure 3 builder (source lines 207-236). -/
def plot_scalability_buffers (t : Table) : Except String (Option BuffersChart) :=
  withOpt t plot_scalability_buffers_core

/-- One tax-sweep series: the instance id, its (tax rate, emissions / 1e6)
line and its (tax rate, cost-with-tax / 1e3) line. -/
abbrev TaxSeries := Value × List (Value × Value) × List (Value × Value)

/-- Figure 4 chart description: one series per rendered instance. -/
abbrev TaxChart := List TaxSeries

instance : DecidableEq TaxChart := inferInstance

/-- The per-instance loop of `plot_tax_sweep` (source lines 252-262): sort
the instance's rows ascending by `tax_rate`; only groups with more than
one row are plotted, and plotting accesses the emissions and
cost-with-tax columns. -/
def taxLoop (ft : Table) : List Value → Except String (List TaxSeries)
  | [] => .ok []
  | inst :: rest =>
    let g := sortRows "tax_rate" true (groupRows ft inst)
    if 1 < g.length then
      needCol ft "total_emissions" (
        needCol ft "total_cost_with_tax" (
          (taxLoop ft rest).map (fun s =>
            (inst,
             g.map (fun r => (cell r "tax_rate", vdiv (cell r "total_emissions") (Value.num 1000000))),
             g.map (fun r => (cell r "tax_rate", vdiv (cell r "total_cost_with_tax") (Value.num 1000)))) :: s)))
    else taxLoop ft rest

/-- `plot_tax_sweep` after the OPTIMAL filter (source lines 243-278):
skip when empty; group by the distinct instance ids. -/
def plot_tax_sweep_core (ft : Table) : Except String (Option TaxChart) :=
  if ft.rows.isEmpty then .ok none
  else
    needCol ft "instance_id" (
      needCol ft "tax_rate" (
        (taxLoop ft (uniqueList (colVals ft "instance_id"))).map (fun s => some s)))

/-- Figure 4 builder (source lines 238-278). -/
def plot_tax_sweep (t : Table) : Except String (Option TaxChart) :=
  withOpt t plot_tax_sweep_core

/-- One cap-sweep series: the instance id, the baseline denominator the
builder used, and the (cap percentage, cost-without-tax / 1e3) points. -/
abbrev CapSeries := Value × Value × List (Value × Value)

/-- Figure 5 chart description; `invertX` records the unconditional
`ax.invert_xaxis()` of source line 308. -/
structure CapChart where
  series : List CapSeries
  invertX : Bool
deriving DecidableEq

/-- The per-instance loop of `plot_cap_sweep` (source lines 293-302): sort
the group descending by `cap_value`; a group is plotted only when it has
more than one row and `emission_reduction_pct` is a column; the baseline
is the sorted group's first `baseline_emissions` cell when that column
exists, else the group's maximum `cap_value`. -/
def capLoop (ft : Table) : List Value → Except String (List CapSeries)
  | [] => .ok []
  | inst :: rest =>
    let g := sortRows "cap_value" false (groupRows ft inst)
    if 1 < g.length ∧ "emission_reduction_pct" ∈ ft.cols then
      let b := if "baseline_emissions" ∈ ft.cols then headCell g "baseline_emissions"
               else seriesMax (g.map (fun r => cell r "cap_value"))
      needCol ft "total_cost_without_tax" (
        (capLoop ft rest).map (fun s =>
          (inst, b,
           g.map (fun r => (capPct (cell r "cap_value") b, vdiv (cell r "total_cost_without_tax") (Value.num 1000)))) :: s))
    else capLoop ft rest

/-- `plot_cap_sweep` after the OPTIMAL filter (source lines 285-314):
skip when empty; group by the distinct instance ids; the x axis is
inverted unconditionally. -/
def plot_cap_sweep_core (ft : Table) : Except String (Option CapChart) :=
  if ft.rows.isEmpty then .ok none
  else
    needCol ft "instance_id" (
      needCol ft "cap_value" (
        (capLoop ft (uniqueList (colVals ft "instance_id"))).map (fun s => some ⟨s, true⟩)))

/-- Figure 5 builder (source lines 280-314). -/
def plot_cap_sweep (t : Table) : Except String (Option CapChart) :=
  withOpt t plot_cap_sweep_core

/-- One hybrid-strategy panel: the instance id and its (emissions / 1e6,
cost-with-tax / 1e3, tax rate) colored scatter points. -/
abbrev HybridPanel := Value × List (Value × Value × Value)

/-- Figure 6 chart description. -/
abbrev HybridChart := List HybridPanel

instance : DecidableEq HybridChart := inferInstance

/-- The per-instance loop of `plot_hybrid_strategy` (source lines
329-354) over the first two distinct instances: only groups with more
than one row draw a panel. -/
def hybridLoop (ft : Table) : List Value → Except String (List HybridPanel)
  | [] => .ok []
  | inst :: rest =>
    let g := groupRows ft inst
    if 1 < g.length then
      needCol ft "total_emissions" (
        needCol ft "total_cost_with_tax" (
          needCol ft "tax_rate" (
            (hybridLoop ft rest).map (fun s =>
              (inst,
               g.map (fun r => (vdiv (cell r "total_emissions") (Value.num 1000000),
                                vdiv (cell r "total_cost_with_tax") (Value.num 1000),
                                cell r "tax_rate"))) :: s))))
    else hybridLoop ft rest

/-- `plot_hybrid_strategy` after the OPTIMAL filter (source lines
321-360): skip when empty; only the first two distinct instance ids are
considered (`instances[:2]`). -/
def plot_hybrid_strategy_core (ft : Table) : Except String (Option HybridChart) :=
  if ft.rows.isEmpty then .ok none
  else
    needCol ft "instance_id" (
      (hybridLoop ft ((uniqueList (colVals ft "instance_id")).take 2)).map (fun s => some s))

/-- Figure 6 builder (source lines 316-360). -/
def plot_hybrid_strategy (t : Table) : Except String (Option HybridChart) :=
  withOpt t plot_hybrid_strategy_core

/-- Figure 7 chart description: per strategy value, the (emissions / 1e6,
cost-without-tax / 1e3) scatter of all its rows. -/
abbrev TradeoffChart := List (Value × List (Value × Value))

instance : DecidableEq TradeoffChart := inferInstance

/-- `plot_cost_emissions_pareto` after the OPTIMAL filter (source lines
367-392): skip when empty or `strategy` is absent; one scatter per
distinct strategy value, no group-size guard. -/
def plot_cost_emissions_pareto_core (ft : Table) : Except String (Option TradeoffChart) :=
  if ft.rows.isEmpty ∨ "strategy" ∉ ft.cols then .ok none
  else
    needCol ft "total_emissions" (
      needCol ft "total_cost_without_tax" (
        .ok (some ((uniqueList (colVals ft "strategy")).map (fun s =>
          (s, (ft.rows.filter (fun r => decide (cell r "strategy" = s))).map (fun r =>
            (vdiv (cell r "total_emissions") (Value.num 1000000),
             vdiv (cell r "total_cost_without_tax") (Value.num 1000)))))))))

/-- Figure 7 builder (source lines 362-392). -/
def plot_cost_emissions_pareto (t : Table) : Except String (Option TradeoffChart) :=
  withOpt t plot_cost_emissions_pareto_core

/-- The three known strategy labels of `plot_strategy_comparison`
(source line 404). -/
def knownStrategies : List String :=
  ["EMISTAXE", "EMISCAP", "EMISHYBRID"]

/-- The known strategy labels present among the given rows
(source line 405: `[s for s in strategies if s in df['strategy'].values]`). -/
def existingStrategies (rows : List Row) : List String :=
  knownStrategies.filter (fun s => rows.any (fun r => decide (cell r "strategy" = Value.str s)))

/-- The values of one column over the rows of one strategy's group. -/
def stratVals (ft : Table) (s : String) (c : String) : List Value :=
  (ft.rows.filter (fun r => decide (cell r "strategy" = Value.str s))).map (fun r => cell r c)

/-- The cost loop of `plot_strategy_comparison` (source lines 413-421):
per strategy, the non-missing `total_cost_with_tax` values; when they are
entirely missing, fall back to the `total_cost_without_tax` column (whose
access can raise); scaled by 1e3. -/
def costLoop (ft : Table) : List String → Except String (List (List Value))
  | [] => .ok []
  | s :: rest =>
    let c1 := dropna (stratVals ft s "total_cost_with_tax")
    if c1.isEmpty then
      needCol ft "total_cost_without_tax" (
        (costLoop ft rest).map (fun l =>
          ((dropna (stratVals ft s "total_cost_without_tax")).map (fun v => vdiv v (Value.num 1000))) :: l))
    else
      (costLoop ft rest).map (fun l => (c1.map (fun v => vdiv v (Value.num 1000))) :: l)

/-- Figure 8 chart description: the strategies compared and the three
box-plot data sets (cost / 1e3, emissions / 1e6, buffer counts). -/
structure StrategyChart where
  strategies : List String
  costData : List (List Value)
  emisData : List (List Value)
  bufferData : List (List Value)
deriving DecidableEq

/-- `plot_strategy_comparison` after the OPTIMAL filter (source lines
399-452): skip when empty or `strategy` is absent, or when fewer than two
of the three known strategy labels occur among the rows. -/
def plot_strategy_comparison_core (ft : Table) : Except String (Option StrategyChart) :=
  if ft.rows.isEmpty ∨ "strategy" ∉ ft.cols then .ok none
  else
    let ex := existingStrategies ft.rows
    if ex.length < 2 then .ok none
    else
      needCol ft "total_cost_with_tax" (
        (costLoop ft ex).bind (fun cd =>
          needCol ft "total_emissions" (
            needCol ft "buffer_count" (
              .ok (some ⟨ex, cd,
                ex.map (fun s => (dropna (stratVals ft s "total_emissions")).map (fun v => vdiv v (Value.num 1000000))),
                ex.map (fun s => dropna (stratVals ft s "buffer_count"))⟩)))))

/-- Figure 8 builder (source lines 394-452). -/
def plot_strategy_comparison (t : Table) : Except String (Option StrategyChart) :=
  withOpt t plot_strategy_comparison_core

/-- The `x if pd.notna(x) else 0` substitution of source line 476: a
missing per-strategy mean becomes zero. -/
def zeroIfNan (v : Value) : Value :=
  match v with
  | Value.num q => Value.num q
  | _ => Value.num 0

/-- The values of one column over the rows grouped by one strategy value
(`df[df['strategy'] == s][c]`). -/
def groupValsBy (ft : Table) (byCol : String) (v : Value) (c : String) : List Value :=
  (ft.rows.filter (fun r => decide (cell r byCol = v))).map (fun r => cell r c)

/-- Figure 9 chart description: the strategies, the per-strategy DIO
means, and the improvement panel (present only when its column exists). -/
structure InvChart where
  strategies : List Value
  dioMeans : List Value
  imprPanel : Option (List Value)
deriving DecidableEq

/-- `plot_inventory_kpis` after the OPTIMAL filter (source lines
459-486): skip when empty or `DIO` is absent; per-strategy means of
`DIO`; the improvement panel exists iff `DIO_improvement_pct` is a
column, each bar being the group's mean with a missing mean replaced by
zero. -/
def plot_inventory_kpis_core (ft : Table) : Except String (Option InvChart) :=
  if ft.rows.isEmpty ∨ "DIO" ∉ ft.cols then .ok none
  else
    needCol ft "strategy" (
      let ss := uniqueList (colVals ft "strategy")
      .ok (some ⟨ss,
        ss.map (fun s => seriesMean (groupValsBy ft "strategy" s "DIO")),
        if "DIO_improvement_pct" ∈ ft.cols then
          some (ss.map (fun s => zeroIfNan (seriesMean (groupValsBy ft "strategy" s "DIO_improvement_pct"))))
        else none⟩))

/-- Figure 9 builder (source lines 454-486). -/
def plot_inventory_kpis (t : Table) : Except String (Option InvChart) :=
  withOpt t plot_inventory_kpis_core

/-- Figure 10 chart description: the distinct promised service times in
ascending order with the per-value buffer-count means and scaled cost
means. -/
structure SvtChart where
  svtValues : List ℚ
  bufferMeans : List Value
  costMeans : List Value
deriving DecidableEq

/-- `plot_service_time_sensitivity` after the OPTIMAL filter (source
lines 493-521): skip when empty; group by the exact
`service_time_promised` value, one bar per distinct value sorted
ascending. -/
def plot_service_time_sensitivity_core (ft : Table) : Except String (Option SvtChart) :=
  if ft.rows.isEmpty then .ok none
  else
    needCol ft "service_time_promised" (
      let vals := List.insertionSort (· ≤ ·) ((uniqueList (colVals ft "service_time_promised")).filterMap Value.toQ?)
      needCol ft "buffer_count" (
        needCol ft "total_cost_without_tax" (
          .ok (some ⟨vals,
            vals.map (fun v => seriesMean (groupValsBy ft "service_time_promised" (Value.num v) "buffer_count")),
            vals.map (fun v => vdiv (seriesMean (groupValsBy ft "service_time_promised" (Value.num v) "total_cost_without_tax")) (Value.num 1000))⟩))))

/-- Figure 10 builder (source lines 488-521). -/
def plot_service_time_sensitivity (t : Table) : Except String (Option SvtChart) :=
  withOpt t plot_service_time_sensitivity_core

/-- Label every row by the topology classification of its identifier
(source lines 534-536); a non-string identifier raises as `x.lower()`
does on a float. -/
def rowLabels : List Row → Except String (List (Row × String))
  | [] => .ok []
  | r :: t =>
    match cell r "instance_id" with
    | Value.str s => (rowLabels t).map (fun l => (r, classifyTopology s) :: l)
    | _ => .error "AttributeError: lower"

/-- Figure 11 chart description: the distinct topology labels and the two
box-plot data sets. -/
structure TopoChart where
  topologies : List String
  emisData : List (List Value)
  bufferData : List (List Value)
deriving DecidableEq

/-- `plot_topology_comparison` after the OPTIMAL filter (source lines
528-563): skip when empty; classify every row, then box-plot emissions
and buffer counts per topology label. -/
def plot_topology_comparison_core (ft : Table) : Except String (Option TopoChart) :=
  if ft.rows.isEmpty then .ok none
  else
    needCol ft "instance_id" (
      (rowLabels ft.rows).bind (fun rl =>
        let ts := uniqueList (rl.map (fun p => p.2))
        needCol ft "total_emissions" (
          needCol ft "buffer_count" (
            .ok (some ⟨ts,
              ts.map (fun tp => (dropna ((rl.filter (fun p => decide (p.2 = tp))).map (fun p => cell p.1 "total_emissions"))).map (fun v => vdiv v (Value.num 1000000))),
              ts.map (fun tp => dropna ((rl.filter (fun p => decide (p.2 = tp))).map (fun p => cell p.1 "buffer_count")))⟩)))))

/-- Figure 11 builder (source lines 523-563). -/
def plot_topology_comparison (t : Table) : Except String (Option TopoChart) :=
  withOpt t plot_topology_comparison_core

/-- Figure 12 chart description: the distinct model types with runtime
means and scaled cost means. -/
structure NlmChart where
  modelTypes : List Value
  runtimeMeans : List Value
  costMeans : List Value
deriving DecidableEq

/-- `plot_plm_nlm_comparison` after the OPTIMAL filter (source lines
570-594): skip when empty or `model_type` is absent; means per model
type. -/
def plot_plm_nlm_comparison_core (ft : Table) : Except String (Option NlmChart) :=
  if ft.rows.isEmpty ∨ "model_type" ∉ ft.cols then .ok none
  else
    let ms := uniqueList (colVals ft "model_type")
    needCol ft "runtime_sec" (
      needCol ft "total_cost_without_tax" (
        .ok (some ⟨ms,
          ms.map (fun m => seriesMean (groupValsBy ft "model_type" m "runtime_sec")),
          ms.map (fun m => vdiv (seriesMean (groupValsBy ft "model_type" m "total_cost_without_tax")) (Value.num 1000))⟩)))

/-- Figure 12 builder (source lines 565-594). -/
def plot_plm_nlm_comparison (t : Table) : Except String (Option NlmChart) :=
  withOpt t plot_plm_nlm_comparison_core

/-- A Pareto-front figure: per selected file, its label and the plotted
(x, cost / 1e3) points. -/
abbrev ParetoFig := List (String × List (Value × Value))

instance : DecidableEq ParetoFig := inferInstance

/-- `plot_pareto_fronts` (source lines 596-661) over the discovered
`*_pareto.csv` files, given as (file name, loaded frame) pairs: no
solver-status filtering occurs.  Figure 13 selects the files whose name
contains `cost_emissions` and plots (Emissions / 1e6, Cost / 1e3) for the
rows where both columns are non-missing; a file lacking either column is
silently left out.  Figure 14 does the same for `cost_dio` files with the
unscaled `DIO` on the x axis. -/
def plot_pareto_fronts (files : List (String × Table)) : Option ParetoFig × Option ParetoFig :=
  if files.isEmpty then (none, none)
  else
    let ce := files.filter (fun f => strHas f.1 "cost_emissions")
    let cd := files.filter (fun f => strHas f.1 "cost_dio")
    ((if ce.isEmpty then none
      else some (ce.filterMap (fun f =>
        if "Cost" ∈ f.2.cols ∧ "Emissions" ∈ f.2.cols then
          some (f.1, (f.2.rows.filter (fun r => (cell r "Cost").isNum && (cell r "Emissions").isNum)).map (fun r =>
            (vdiv (cell r "Emissions") (Value.num 1000000), vdiv (cell r "Cost") (Value.num 1000))))
        else none))),
     (if cd.isEmpty then none
      else some (cd.filterMap (fun f =>
        if "Cost" ∈ f.2.cols ∧ "DIO" ∈ f.2.cols then
          some (f.1, (f.2.rows.filter (fun r => (cell r "Cost").isNum && (cell r "DIO").isNum)).map (fun r =>
            (cell r "DIO", vdiv (cell r "Cost") (Value.num 1000))))
        else none))))

/-- The tables the repository may have loaded (`None` models an absent
CSV file), plus the discovered Pareto-front files. -/
structure Tables where
  scalability? : Option Table
  taxSweep? : Option Table
  capSweep? : Option Table
  hybrid? : Option Table
  consolidated? : Option Table
  svt? : Option Table
  topology? : Option Table
  nlm? : Option Table
  paretoFiles : List (String × Table)

/-- One orchestrator step: a builder runs only when its table loaded; a
produced chart appends its artifact slug, a skip leaves the list
unchanged, an uncaught exception aborts the whole run. -/
def stepT {α : Type} (acc : List String) (slug : String) (tb? : Option Table)
    (b : Table → Except String (Option α)) : Except String (List String) :=
  match tb? with
  | none => .ok acc
  | some tb =>
    match b tb with
    | .error e => .error e
    | .ok none => .ok acc
    | .ok (some _) => .ok (acc ++ [slug])

/-- `generate_all_figures` (source lines 97-141): the fixed builder order,
each gated on its table's presence; the Pareto-front builder always runs
last.  Returns the produced artifact slugs, or the first uncaught
exception. -/
def generateAllFigures (g : Tables) : Except String (List String) :=
  match stepT [] "fig1" g.scalability? plot_scalability_runtime with
  | .error e => .error e
  | .ok a1 =>
  match stepT a1 "fig2" g.scalability? plot_scalability_emissions with
  | .error e => .error e
  | .ok a2 =>
  match stepT a2 "fig3" g.scalability? plot_scalability_buffers with
  | .error e => .error e
  | .ok a3 =>
  match stepT a3 "fig4" g.taxSweep? plot_tax_sweep with
  | .error e => .error e
  | .ok a4 =>
  match stepT a4 "fig5" g.capSweep? plot_cap_sweep with
  | .error e => .error e
  | .ok a5 =>
  match stepT a5 "fig6" g.hybrid? plot_hybrid_strategy with
  | .error e => .error e
  | .ok a6 =>
  match stepT a6 "fig7" g.consolidated? plot_cost_emissions_pareto with
  | .error e => .error e
  | .ok a7 =>
  match stepT a7 "fig8" g.consolidated? plot_strategy_comparison with
  | .error e => .error e
  | .ok a8 =>
  match stepT a8 "fig9" g.consolidated? plot_inventory_kpis with
  | .error e => .error e
  | .ok a9 =>
  match stepT a9 "fig10" g.svt? plot_service_time_sensitivity with
  | .error e => .error e
  | .ok a10 =>
  match stepT a10 "fig11" g.topology? plot_topology_comparison with
  | .error e => .error e
  | .ok a11 =>
  match stepT a11 "fig12" g.nlm? plot_plm_nlm_comparison with
  | .error e => .error e
  | .ok a12 =>
    let p := plot_pareto_fronts g.paretoFiles
    let a13 := if p.1.isSome then a12 ++ ["fig13"] else a12
    .ok (if p.2.isSome then a13 ++ ["fig14"] else a13)

/-- The OPTIMAL rows of one instance's group, straight off the input
table: what the sweep builders' `df[df['instance_id'] == inst]` selects
after the status filter. -/
def optGroup (t : Table) (inst : Value) : List Row :=
  (optRows t).filter (fun r => decide (cell r "instance_id" = inst))

/-- A point list whose x components are ordered (ascending when `asc`,
else descending), missing keys last. -/
def ptsSorted (asc : Bool) (l : List (Value × Value)) : Prop :=
  List.Pairwise (fun p q => vleB asc p.1 q.1 = true) l

/-- The per-strategy cost series of `plot_strategy_comparison` described
at the table level: the non-missing tax-inclusive costs, or the
non-missing tax-exclusive costs when the former are entirely missing,
scaled by 1e3. -/
def costSeries (ft : Table) (s : String) : List Value :=
  let c1 := dropna (stratVals ft s "total_cost_with_tax")
  (if c1.isEmpty then dropna (stratVals ft s "total_cost_without_tax") else c1).map
    (fun v => vdiv v (Value.num 1000))

/-- Modelled from the spec's words, for comparison with the code: the
improvement-percentage mean with missing values treated as zero. -/
def specImprMean (l : List Value) : Value :=
  Value.num (qdiv ((l.map (fun v => (Value.toQ? v).getD 0)).foldr qadd 0) (mkRat (l.length : ℤ) 1))

/-- A possibly-absent table that, when present, carries the status column
and has no OPTIMAL row. -/
def tableEmptyOpt (tb? : Option Table) : Prop :=
  ∀ tb, tb? = some tb → ("solver_status" ∈ tb.cols ∧ optRows tb = [])

/-- Shorthand for building an OPTIMAL row. -/
def rOpt (ps : List (String × Value)) : Row :=
  ("solver_status", Value.str "OPTIMAL") :: ps

/-- A scalability table whose only OPTIMAL row matches the size pattern
but whose `runtime_sec` column is missing. -/
def exScalMissing : Table :=
  ⟨["solver_status", "instance_id"],
   [rOpt [("instance_id", Value.str "bom_10")]]⟩

/-- A repository where only the (runtime-column-less) scalability table
loaded. -/
def exTablesAbort : Tables :=
  ⟨some exScalMissing, none, none, none, none, none, none, none, []⟩

/-- A table holding the status column and a single non-OPTIMAL row. -/
def exInfOnly : Table :=
  ⟨["solver_status"], [[("solver_status", Value.str "INFEASIBLE")]]⟩

/-- A repository where only a zero-OPTIMAL-rows table loaded. -/
def exTablesEmpty : Tables :=
  ⟨some exInfOnly, none, none, none, none, none, none, none, []⟩

/-- A single non-OPTIMAL row. -/
def rNonOpt : Row :=
  [("solver_status", Value.str "INFEASIBLE")]

/-- A Pareto-front file whose one row carries a non-OPTIMAL solver
status alongside its Cost/Emissions pair. -/
def exParetoFiles : List (String × Table) :=
  [("inst1_cost_emissions_pareto.csv",
    ⟨["Cost", "Emissions", "solver_status"],
     [[("Cost", Value.num 1000), ("Emissions", Value.num 2000000),
       ("solver_status", Value.str "INFEASIBLE")]]⟩)]

/-- An OPTIMAL scalability row at size 10. -/
def rBom10 : Row :=
  rOpt [("instance_id", Value.str "bom_10"), ("runtime_sec", Value.num 2)]

/-- An OPTIMAL row whose identifier does not match the size pattern. -/
def rControl : Row :=
  rOpt [("instance_id", Value.str "control"), ("runtime_sec", Value.num 3)]

/-- The scalability column set used by the extraction witness. -/
def colsScal : List String :=
  ["solver_status", "instance_id", "runtime_sec"]

/-- Cap-sweep table without a `baseline_emissions` column: instance `i1`
with caps 50 and 100, instance `i2` a singleton. -/
def exCap : Table :=
  ⟨["solver_status", "instance_id", "cap_value", "emission_reduction_pct", "total_cost_without_tax"],
   [rOpt [("instance_id", Value.str "i1"), ("cap_value", Value.num 50),
          ("emission_reduction_pct", Value.num 0), ("total_cost_without_tax", Value.num 1000)],
    rOpt [("instance_id", Value.str "i1"), ("cap_value", Value.num 100),
          ("emission_reduction_pct", Value.num 0), ("total_cost_without_tax", Value.num 2000)],
    rOpt [("instance_id", Value.str "i2"), ("cap_value", Value.num 70),
          ("emission_reduction_pct", Value.num 0), ("total_cost_without_tax", Value.num 500)]]⟩

/-- The chart `plot_cap_sweep` produces from `exCap`. -/
def exCapCh : CapChart :=
  ⟨[(Value.str "i1", Value.num 100,
     [(Value.num 100, Value.num 2), (Value.num 50, Value.num 1)])], true⟩

/-- Cap-sweep table with a `baseline_emissions` column (value 200). -/
def exCapB : Table :=
  ⟨["solver_status", "instance_id", "cap_value", "emission_reduction_pct",
    "total_cost_without_tax", "baseline_emissions"],
   [rOpt [("instance_id", Value.str "i1"), ("cap_value", Value.num 50),
          ("emission_reduction_pct", Value.num 0), ("total_cost_without_tax", Value.num 1000),
          ("baseline_emissions", Value.num 200)],
    rOpt [("instance_id", Value.str "i1"), ("cap_value", Value.num 100),
          ("emission_reduction_pct", Value.num 0), ("total_cost_without_tax", Value.num 2000),
          ("baseline_emissions", Value.num 200)]]⟩

/-- The chart `plot_cap_sweep` produces from `exCapB`. -/
def exCapBCh : CapChart :=
  ⟨[(Value.str "i1", Value.num 200,
     [(Value.num 50, Value.num 2), (Value.num 25, Value.num 1)])], true⟩

/-- Tax-sweep table: instance `i1` with two rows (given out of order),
instance `i2` a singleton. -/
def exTax : Table :=
  ⟨["solver_status", "instance_id", "tax_rate", "total_emissions", "total_cost_with_tax"],
   [rOpt [("instance_id", Value.str "i1"), ("tax_rate", Value.num 2),
          ("total_emissions", Value.num 2000000), ("total_cost_with_tax", Value.num 2000)],
    rOpt [("instance_id", Value.str "i1"), ("tax_rate", Value.num 1),
          ("total_emissions", Value.num 1000000), ("total_cost_with_tax", Value.num 1000)],
    rOpt [("instance_id", Value.str "i2"), ("tax_rate", Value.num 1),
          ("total_emissions", Value.num 3000000), ("total_cost_with_tax", Value.num 3000)]]⟩

/-- The chart `plot_tax_sweep` produces from `exTax`. -/
def exTaxCh : TaxChart :=
  [(Value.str "i1",
    [(Value.num 1, Value.num 1), (Value.num 2, Value.num 2)],
    [(Value.num 1, Value.num 1), (Value.num 2, Value.num 2)])]

/-- Hybrid table: instance `h1` with two rows, instance `h2` a
singleton. -/
def exHyb : Table :=
  ⟨["solver_status", "instance_id", "total_emissions", "total_cost_with_tax", "tax_rate"],
   [rOpt [("instance_id", Value.str "h1"), ("total_emissions", Value.num 1000000),
          ("total_cost_with_tax", Value.num 1000), ("tax_rate", Value.num 1)],
    rOpt [("instance_id", Value.str "h1"), ("total_emissions", Value.num 2000000),
          ("total_cost_with_tax", Value.num 2000), ("tax_rate", Value.num 2)],
    rOpt [("instance_id", Value.str "h2"), ("total_emissions", Value.num 3000000),
          ("total_cost_with_tax", Value.num 3000), ("tax_rate", Value.num 3)]]⟩

/-- The chart `plot_hybrid_strategy` produces from `exHyb`. -/
def exHybCh : HybridChart :=
  [(Value.str "h1",
    [(Value.num 1, Value.num 1, Value.num 1), (Value.num 2, Value.num 2, Value.num 2)])]

/-- Consolidated table with two known strategies among its OPTIMAL rows
but no cost column at all. -/
def exSC : Table :=
  ⟨["solver_status", "strategy"],
   [rOpt [("strategy", Value.str "EMISTAXE")], rOpt [("strategy", Value.str "EMISCAP")]]⟩

/-- Consolidated table with two known strategies and the full column
set; the EMISCAP row's tax-inclusive cost is missing, exercising the
fallback. -/
def exSC2 : Table :=
  ⟨["solver_status", "strategy", "total_cost_with_tax", "total_cost_without_tax",
    "total_emissions", "buffer_count"],
   [rOpt [("strategy", Value.str "EMISTAXE"), ("total_cost_with_tax", Value.num 1000),
          ("total_cost_without_tax", Value.num 900), ("total_emissions", Value.num 1000000),
          ("buffer_count", Value.num 5)],
    rOpt [("strategy", Value.str "EMISCAP"), ("total_cost_with_tax", Value.nan),
          ("total_cost_without_tax", Value.num 2000), ("total_emissions", Value.num 2000000),
          ("buffer_count", Value.num 7)]]⟩

/-- Consolidated table for the inventory KPIs: one strategy whose two
rows have improvement values 10 and missing. -/
def exInv : Table :=
  ⟨["solver_status", "strategy", "DIO", "DIO_improvement_pct"],
   [rOpt [("strategy", Value.str "EMISTAXE"), ("DIO", Value.num 10),
          ("DIO_improvement_pct", Value.num 10)],
    rOpt [("strategy", Value.str "EMISTAXE"), ("DIO", Value.num 20),
          ("DIO_improvement_pct", Value.nan)]]⟩

/-- The chart `plot_inventory_kpis` produces from `exInv`. -/
def exInvCh : InvChart :=
  ⟨[Value.str "EMISTAXE"], [Value.num 15], some [Value.num 10]⟩

theorem mkRat_eq_div' (n : ℤ) (d : ℕ) : mkRat n d = (n : ℚ) / (d : ℚ) := by
  rw [Rat.mkRat_eq_divInt, Rat.divInt_eq_div]
  norm_cast

theorem qmul_eq (a b : ℚ) : qmul a b = a * b := by
  rw [qmul, mkRat_eq_div']
  push_cast
  rw [← div_mul_div_comm, Rat.num_div_den, Rat.num_div_den]

theorem qadd_eq (a b : ℚ) : qadd a b = a + b := by
  rw [qadd, mkRat_eq_div']
  push_cast
  conv_rhs => rw [← Rat.num_div_den a, ← Rat.num_div_den b]
  rw [div_add_div _ _ (Nat.cast_ne_zero.mpr a.den_nz) (Nat.cast_ne_zero.mpr b.den_nz)]
  ring_nf

theorem qinv_eq (b : ℚ) : qinv b = b⁻¹ := by
  rcases eq_or_ne b 0 with rfl | hb
  · rw [inv_zero]; decide
  · have hbn : b.num ≠ 0 := Rat.num_ne_zero.mpr hb
    have habs : ((b.num.natAbs : ℚ)) ≠ 0 := Nat.cast_ne_zero.mpr (Int.natAbs_ne_zero.mpr hbn)
    have hden : ((b.den : ℚ)) ≠ 0 := Nat.cast_ne_zero.mpr b.den_nz
    have key : (b.num : ℚ) = b * (b.den : ℚ) := (div_eq_iff hden).mp (Rat.num_div_den b)
    have hsgn : ((b.num.sign : ℤ) : ℚ) * (b.num : ℚ) = ((b.num.natAbs : ℕ) : ℚ) := by
      rw [← Int.cast_mul, Int.mul_comm, Int.mul_sign]
      simp [Int.cast_natAbs]
    rw [qinv, mkRat_eq_div']
    push_cast
    refine eq_inv_of_mul_eq_one_right ?_
    rw [mul_comm, div_mul_eq_mul_div, div_eq_one_iff_eq habs]
    calc (b.den : ℚ) * ((b.num.sign : ℤ) : ℚ) * b
        = ((b.num.sign : ℤ) : ℚ) * (b * (b.den : ℚ)) := by ring
      _ = ((b.num.sign : ℤ) : ℚ) * (b.num : ℚ) := by rw [← key]
      _ = _ := hsgn

theorem qdiv_eq (a b : ℚ) : qdiv a b = a / b := by
  rw [qdiv, qmul_eq, qinv_eq, div_eq_mul_inv]

theorem of_withOpt_ok {α : Type} {t : Table} {k : Table → Except String α} {v : α}
    (h : withOpt t k = .ok v) : k ⟨t.cols, optRows t⟩ = .ok v := by
  unfold withOpt at h
  by_cases hc : "solver_status" ∈ t.cols
  · rwa [if_pos hc] at h
  · rw [if_neg hc] at h
    simp at h

theorem withOpt_insert {α : Type} (cols : List String) (pre post : List Row) (r : Row)
    (k : Table → Except String α) (h : isOpt r = false) :
    withOpt ⟨cols, pre ++ r :: post⟩ k = withOpt ⟨cols, pre ++ post⟩ k := by
  unfold withOpt optRows
  by_cases hc : "solver_status" ∈ cols
  · rw [if_pos hc, if_pos hc]
    have hrows : (pre ++ r :: post).filter isOpt = (pre ++ post).filter isOpt := by
      simp only [List.filter_append, List.filter_cons, h]
      simp
    rw [hrows]
  · rw [if_neg hc, if_neg hc]

theorem seriesMax_perm {l₁ l₂ : List Value} (h : l₁.Perm l₂) : seriesMax l₁ = seriesMax l₂ := by
  unfold seriesMax
  exact h.foldr_eq Value.nan

theorem uniqueAux_nodup {α : Type} [DecidableEq α] (l : List α) :
    ∀ seen : List α, (uniqueAux seen l).Nodup ∧ ∀ v ∈ uniqueAux seen l, v ∉ seen := by
  induction l with
  | nil => intro seen; simp [uniqueAux]
  | cons v t ih =>
    intro seen
    by_cases hv : v ∈ seen
    · simpa [uniqueAux, hv] using ih seen
    · obtain ⟨hnd, hns⟩ := ih (v :: seen)
      simp only [uniqueAux, if_neg hv]
      refine ⟨List.nodup_cons.mpr ⟨fun hmem => (hns v hmem) (List.mem_cons_self v seen), hnd⟩, ?_⟩
      intro w hw
      rcases List.mem_cons.mp hw with rfl | hw
      · exact hv
      · exact fun hws => (hns w hw) (List.mem_cons_of_mem v hws)

theorem uniqueList_nodup {α : Type} [DecidableEq α] (l : List α) : (uniqueList l).Nodup :=
  (uniqueAux_nodup l []).1

theorem taxLoop_sound (ft : Table) (l : List Value) :
    ∀ res, taxLoop ft l = .ok res →
      (res.map (fun s => s.1)).Sublist l ∧
      ∀ s ∈ res, 2 ≤ (groupRows ft s.1).length ∧
        ∃ g, g.Perm (groupRows ft s.1) ∧ List.Sorted (keyLe "tax_rate" true) g ∧
          s.2.1 = g.map (fun r => (cell r "tax_rate", vdiv (cell r "total_emissions") (Value.num 1000000))) ∧
          s.2.2 = g.map (fun r => (cell r "tax_rate", vdiv (cell r "total_cost_with_tax") (Value.num 1000))) := by
  induction l with
  | nil =>
    intro res h
    simp only [taxLoop] at h
    injection h with h
    subst h
    simp
  | cons inst rest ih =>
    intro res h
    simp only [taxLoop] at h
    split at h
    case isTrue hlen =>
      simp only [needCol] at h
      split at h
      case isFalse => simp at h
      case isTrue h1 =>
        split at h
        case isFalse => simp at h
        case isTrue h2 =>
          cases hrec : taxLoop ft rest with
          | error e => rw [hrec] at h; simp [Except.map] at h
          | ok s =>
            rw [hrec] at h
            simp only [Except.map] at h
            injection h with h
            subst h
            obtain ⟨hsub, hmem⟩ := ih s hrec
            refine ⟨by simpa using List.Sublist.cons₂ inst hsub, ?_⟩
            intro s' hs'
            rcases List.mem_cons.mp hs' with rfl | hs'
            · refine ⟨?_, sortRows "tax_rate" true (groupRows ft inst),
                List.perm_insertionSort _ _, List.sorted_insertionSort _ _, rfl, rfl⟩
              have h2le := hlen
              rw [sortRows, List.length_insertionSort] at h2le
              exact h2le
            · exact hmem s' hs'
    case isFalse =>
      obtain ⟨hsub, hmem⟩ := ih res h
      exact ⟨hsub.cons inst, hmem⟩

theorem capLoop_sound (ft : Table) (l : List Value) :
    ∀ res, capLoop ft l = .ok res →
      (res.map (fun s => s.1)).Sublist l ∧
      ∀ s ∈ res, 2 ≤ (groupRows ft s.1).length ∧
        s.2.1 = (if "baseline_emissions" ∈ ft.cols
                 then headCell (sortRows "cap_value" false (groupRows ft s.1)) "baseline_emissions"
                 else seriesMax ((groupRows ft s.1).map (fun r => cell r "cap_value"))) ∧
        ∃ g, g.Perm (groupRows ft s.1) ∧ List.Sorted (keyLe "cap_value" false) g ∧
          s.2.2 = g.map (fun r => (capPct (cell r "cap_value") s.2.1,
                                   vdiv (cell r "total_cost_without_tax") (Value.num 1000))) := by
  induction l with
  | nil =>
    intro res h
    simp only [capLoop] at h
    injection h with h
    subst h
    simp
  | cons inst rest ih =>
    intro res h
    simp only [capLoop] at h
    split at h
    case isTrue hcond =>
      simp only [needCol] at h
      split at h
      case isFalse => simp at h
      case isTrue h1 =>
        cases hrec : capLoop ft rest with
        | error e => rw [hrec] at h; simp [Except.map] at h
        | ok s =>
          rw [hrec] at h
          simp only [Except.map] at h
          injection h with h
          subst h
          obtain ⟨hsub, hmem⟩ := ih s hrec
          refine ⟨by simpa using List.Sublist.cons₂ inst hsub, ?_⟩
          intro s' hs'
          rcases List.mem_cons.mp hs' with rfl | hs'
          · have hlen2 : 2 ≤ (groupRows ft inst).length := by
              have := hcond.1
              rw [sortRows, List.length_insertionSort] at this
              omega
            refine ⟨hlen2, ?_, sortRows "cap_value" false (groupRows ft inst),
              List.perm_insertionSort _ _, List.sorted_insertionSort _ _, rfl⟩
            by_cases hbase : "baseline_emissions" ∈ ft.cols
            · rw [if_pos hbase, if_pos hbase]
            · rw [if_neg hbase, if_neg hbase]
              exact seriesMax_perm ((List.perm_insertionSort _ _).map _)
          · exact hmem s' hs'
    case isFalse =>
      obtain ⟨hsub, hmem⟩ := ih res h
      exact ⟨hsub.cons inst, hmem⟩

theorem hybridLoop_sound (ft : Table) (l : List Value) :
    ∀ res, hybridLoop ft l = .ok res →
      (res.map (fun s => s.1)).Sublist l ∧
      ∀ s ∈ res, 2 ≤ (groupRows ft s.1).length ∧
        s.2 = (groupRows ft s.1).map (fun r =>
          (vdiv (cell r "total_emissions") (Value.num 1000000),
           vdiv (cell r "total_cost_with_tax") (Value.num 1000),
           cell r "tax_rate")) := by
  induction l with
  | nil =>
    intro res h
    simp only [hybridLoop] at h
    injection h with h
    subst h
    simp
  | cons inst rest ih =>
    intro res h
    simp only [hybridLoop] at h
    split at h
    case isTrue hlen =>
      simp only [needCol] at h
      split at h
      case isFalse => simp at h
      case isTrue h1 =>
        split at h
        case isFalse => simp at h
        case isTrue h2 =>
          split at h
          case isFalse => simp at h
          case isTrue h3 =>
            cases hrec : hybridLoop ft rest with
            | error e => rw [hrec] at h; simp [Except.map] at h
            | ok s =>
              rw [hrec] at h
              simp only [Except.map] at h
              injection h with h
              subst h
              obtain ⟨hsub, hmem⟩ := ih s hrec
              refine ⟨by simpa using List.Sublist.cons₂ inst hsub, ?_⟩
              intro s' hs'
              rcases List.mem_cons.mp hs' with rfl | hs'
              · exact ⟨hlen, rfl⟩
              · exact hmem s' hs'
    case isFalse =>
      obtain ⟨hsub, hmem⟩ := ih res h
      exact ⟨hsub.cons inst, hmem⟩

theorem costLoop_ok (ft : Table) (hwo : "total_cost_without_tax" ∈ ft.cols) (l : List String) :
    costLoop ft l = .ok (l.map (costSeries ft)) := by
  induction l with
  | nil => simp [costLoop]
  | cons s rest ih =>
    simp only [costLoop, needCol, if_pos hwo, ih, Except.map, List.map_cons, costSeries]
    split
    case isTrue hc => simp [hc]
    case isFalse hc => simp [hc]

theorem plot_scalability_runtime_skip (tb : Table) (h1 : "solver_status" ∈ tb.cols)
    (h2 : optRows tb = []) : plot_scalability_runtime tb = .ok none := by
  unfold plot_scalability_runtime withOpt
  rw [if_pos h1]
  simp [plot_scalability_runtime_core, h2]

theorem plot_scalability_emissions_skip (tb : Table) (h1 : "solver_status" ∈ tb.cols)
    (h2 : optRows tb = []) : plot_scalability_emissions tb = .ok none := by
  unfold plot_scalability_emissions withOpt
  rw [if_pos h1]
  simp [plot_scalability_emissions_core, h2]

theorem plot_scalability_buffers_skip (tb : Table) (h1 : "solver_status" ∈ tb.cols)
    (h2 : optRows tb = []) : plot_scalability_buffers tb = .ok none := by
  unfold plot_scalability_buffers withOpt
  rw [if_pos h1]
  simp [plot_scalability_buffers_core, h2]

theorem plot_tax_sweep_skip (tb : Table) (h1 : "solver_status" ∈ tb.cols)
    (h2 : optRows tb = []) : plot_tax_sweep tb = .ok none := by
  unfold plot_tax_sweep withOpt
  rw [if_pos h1]
  simp [plot_tax_sweep_core, h2]

theorem plot_cap_sweep_skip (tb : Table) (h1 : "solver_status" ∈ tb.cols)
    (h2 : optRows tb = []) : plot_cap_sweep tb = .ok none := by
  unfold plot_cap_sweep withOpt
  rw [if_pos h1]
  simp [plot_cap_sweep_core, h2]

theorem plot_hybrid_strategy_skip (tb : Table) (h1 : "solver_status" ∈ tb.cols)
    (h2 : optRows tb = []) : plot_hybrid_strategy tb = .ok none := by
  unfold plot_hybrid_strategy withOpt
  rw [if_pos h1]
  simp [plot_hybrid_strategy_core, h2]

theorem plot_cost_emissions_pareto_skip (tb : Table) (h1 : "solver_status" ∈ tb.cols)
    (h2 : optRows tb = []) : plot_cost_emissions_pareto tb = .ok none := by
  unfold plot_cost_emissions_pareto withOpt
  rw [if_pos h1]
  simp [plot_cost_emissions_pareto_core, h2]

theorem plot_strategy_comparison_skip (tb : Table) (h1 : "solver_status" ∈ tb.cols)
    (h2 : optRows tb = []) : plot_strategy_comparison tb = .ok none := by
  unfold plot_strategy_comparison withOpt
  rw [if_pos h1]
  simp [plot_strategy_comparison_core, h2]

theorem plot_inventory_kpis_skip (tb : Table) (h1 : "solver_status" ∈ tb.cols)
    (h2 : optRows tb = []) : plot_inventory_kpis tb = .ok none := by
  unfold plot_inventory_kpis withOpt
  rw [if_pos h1]
  simp [plot_inventory_kpis_core, h2]

theorem plot_service_time_sensitivity_skip (tb : Table) (h1 : "solver_status" ∈ tb.cols)
    (h2 : optRows tb = []) : plot_service_time_sensitivity tb = .ok none := by
  unfold plot_service_time_sensitivity withOpt
  rw [if_pos h1]
  simp [plot_service_time_sensitivity_core, h2]

theorem plot_topology_comparison_skip (tb : Table) (h1 : "solver_status" ∈ tb.cols)
    (h2 : optRows tb = []) : plot_topology_comparison tb = .ok none := by
  unfold plot_topology_comparison withOpt
  rw [if_pos h1]
  simp [plot_topology_comparison_core, h2]

theorem plot_plm_nlm_comparison_skip (tb : Table) (h1 : "solver_status" ∈ tb.cols)
    (h2 : optRows tb = []) : plot_plm_nlm_comparison tb = .ok none := by
  unfold plot_plm_nlm_comparison withOpt
  rw [if_pos h1]
  simp [plot_plm_nlm_comparison_core, h2]

theorem stepT_skip {α : Type} (acc : List String) (slug : String) (tb? : Option Table)
    (b : Table → Except String (Option α))
    (h : ∀ tb, tb? = some tb → b tb = .ok none) : stepT acc slug tb? b = .ok acc := by
  cases tb? with
  | none => rfl
  | some tb => simp [stepT, h tb rfl]

theorem tax_ok_elim (t : Table) (ch : TaxChart) (h : plot_tax_sweep t = .ok (some ch)) :
    taxLoop ⟨t.cols, optRows t⟩ (uniqueList (colVals ⟨t.cols, optRows t⟩ "instance_id")) = .ok ch := by
  have hcore := of_withOpt_ok h
  unfold plot_tax_sweep_core at hcore
  split at hcore
  case isTrue => simp at hcore
  case isFalse =>
    simp only [needCol] at hcore
    split at hcore
    case isFalse => simp at hcore
    case isTrue h1 =>
      split at hcore
      case isFalse => simp at hcore
      case isTrue h2 =>
        cases hloop : taxLoop ⟨t.cols, optRows t⟩ (uniqueList (colVals ⟨t.cols, optRows t⟩ "instance_id")) with
        | error e => rw [hloop] at hcore; simp [Except.map] at hcore
        | ok s =>
          rw [hloop] at hcore
          simp only [Except.map] at hcore
          injection hcore with hcore
          injection hcore with hcore
          rw [hcore]

theorem cap_ok_elim (t : Table) (ch : CapChart) (h : plot_cap_sweep t = .ok (some ch)) :
    ch.invertX = true ∧
    capLoop ⟨t.cols, optRows t⟩ (uniqueList (colVals ⟨t.cols, optRows t⟩ "instance_id")) = .ok ch.series := by
  have hcore := of_withOpt_ok h
  unfold plot_cap_sweep_core at hcore
  split at hcore
  case isTrue => simp at hcore
  case isFalse =>
    simp only [needCol] at hcore
    split at hcore
    case isFalse => simp at hcore
    case isTrue h1 =>
      split at hcore
      case isFalse => simp at hcore
      case isTrue h2 =>
        cases hloop : capLoop ⟨t.cols, optRows t⟩ (uniqueList (colVals ⟨t.cols, optRows t⟩ "instance_id")) with
        | error e => rw [hloop] at hcore; simp [Except.map] at hcore
        | ok s =>
          rw [hloop] at hcore
          simp only [Except.map] at hcore
          injection hcore with hcore
          injection hcore with hcore
          rw [← hcore]
          exact ⟨rfl, rfl⟩

theorem hybrid_ok_elim (t : Table) (ch : HybridChart) (h : plot_hybrid_strategy t = .ok (some ch)) :
    hybridLoop ⟨t.cols, optRows t⟩ ((uniqueList (colVals ⟨t.cols, optRows t⟩ "instance_id")).take 2) = .ok ch := by
  have hcore := of_withOpt_ok h
  unfold plot_hybrid_strategy_core at hcore
  split at hcore
  case isTrue => simp at hcore
  case isFalse =>
    simp only [needCol] at hcore
    split at hcore
    case isFalse => simp at hcore
    case isTrue h1 =>
      cases hloop : hybridLoop ⟨t.cols, optRows t⟩ ((uniqueList (colVals ⟨t.cols, optRows t⟩ "instance_id")).take 2) with
      | error e => rw [hloop] at hcore; simp [Except.map] at hcore
      | ok s =>
        rw [hloop] at hcore
        simp only [Except.map] at hcore
        injection hcore with hcore
        injection hcore with hcore
        rw [hcore]

/-- C3 (confirmed): in the cap-sweep chart, every rendered instance
series' percentage-of-baseline denominator equals, when the table has no
`baseline_emissions` column, the maximum `cap_value` observed within that
instance's OPTIMAL group; when the column is present, it is the first
row's `baseline_emissions` value of the descending-sorted group. -/
theorem c3_cap_baseline (t : Table) (ch : CapChart) (inst b : Value) (pts : List (Value × Value))
    (hok : plot_cap_sweep t = .ok (some ch)) (hmem : (inst, b, pts) ∈ ch.series) :
    b = (if "baseline_emissions" ∈ t.cols
         then headCell (sortRows "cap_value" false (optGroup t inst)) "baseline_emissions"
         else seriesMax ((optGroup t inst).map (fun r => cell r "cap_value"))) := by
  obtain ⟨-, hloop⟩ := cap_ok_elim t ch hok
  obtain ⟨-, hmem'⟩ := capLoop_sound _ _ _ hloop
  exact (hmem' _ hmem).2.1

/-- C3 witness: at a concrete cap-sweep table without the baseline
column the denominator is the group's maximum cap (100); at one with the
column it is the first sorted row's baseline value (200). -/
theorem c3_witness :
    (plot_cap_sweep exCap = .ok (some exCapCh) ∧
     Value.num 100 = (if "baseline_emissions" ∈ exCap.cols
        then headCell (sortRows "cap_value" false (optGroup exCap (Value.str "i1"))) "baseline_emissions"
        else seriesMax ((optGroup exCap (Value.str "i1")).map (fun r => cell r "cap_value")))) ∧
    (plot_cap_sweep exCapB = .ok (some exCapBCh) ∧
     Value.num 200 = (if "baseline_emissions" ∈ exCapB.cols
        then headCell (sortRows "cap_value" false (optGroup exCapB (Value.str "i1"))) "baseline_emissions"
        else seriesMax ((optGroup exCapB (Value.str "i1")).map (fun r => cell r "cap_value")))) :=
  ⟨⟨by decide, c3_cap_baseline exCap exCapCh (Value.str "i1") (Value.num 100)
      [(Value.num 100, Value.num 2), (Value.num 50, Value.num 1)] (by decide) (by decide)⟩,
   ⟨by decide, c3_cap_baseline exCapB exCapBCh (Value.str "i1") (Value.num 200)
      [(Value.num 50, Value.num 2), (Value.num 25, Value.num 1)] (by decide) (by decide)⟩⟩

/-- C9 (confirmed): the ratio-to-baseline derivation
`(value / baseline) * 100` yields exactly 100 whenever the value equals
its own nonzero baseline. -/
theorem c9_ratio_to_baseline (b : ℚ) (hb : b ≠ 0) :
    capPct (Value.num b) (Value.num b) = Value.num 100 := by
  simp only [capPct, vdiv, if_neg hb, vmul]
  rw [qdiv_eq, qmul_eq, div_self hb, one_mul]

/-- C9 witness: the ratio at the concrete baseline 5. -/
theorem c9_witness : (5 : ℚ) ≠ 0 ∧ capPct (Value.num 5) (Value.num 5) = Value.num 100 :=
  ⟨by norm_num, c9_ratio_to_baseline 5 (by norm_num)⟩

/-- C5 (confirmed): the topology classification returns the fallback
label `Standard` iff neither `ml` nor `par` occurs case-insensitively in
the identifier, and `ml` (giving `Multi-Level`) wins when both occur. -/
theorem c5_classify_by_pattern (s : String) :
    (classifyTopology s = "Standard" ↔ csOccurs s "ml" = false ∧ csOccurs s "par" = false) ∧
    (csOccurs s "ml" = true → csOccurs s "par" = true → classifyTopology s = "Multi-Level") := by
  unfold classifyTopology
  cases hml : csOccurs s "ml" <;> cases hpar : csOccurs s "par" <;> simp [hml, hpar]

/-- C5 witness: an identifier containing both substrings is classified
`Multi-Level`. -/
theorem c5_witness :
    csOccurs "x_ml_par" "ml" = true ∧ csOccurs "x_ml_par" "par" = true ∧
    classifyTopology "x_ml_par" = "Multi-Level" :=
  ⟨by decide, by decide, (c5_classify_by_pattern "x_ml_par").2 (by decide) (by decide)⟩

/-- C8 (confirmed): the tax-sweep chart groups rows by instance
identifier with at most one series per instance, each series' point
lists coming from that instance's OPTIMAL group sorted ascending by
`tax_rate` (so the x values are ascending); the cap-sweep chart does the
same with the group sorted descending by `cap_value`, and its x axis is
inverted. -/
theorem c8_sweep_ordering :
    (∀ (t : Table) (ch : TaxChart), plot_tax_sweep t = .ok (some ch) →
      (ch.map (fun s => s.1)).Nodup ∧
      ∀ s ∈ ch, ptsSorted true s.2.1 ∧ ptsSorted true s.2.2 ∧
        ∃ g, g.Perm (optGroup t s.1) ∧ List.Sorted (keyLe "tax_rate" true) g ∧
          s.2.1 = g.map (fun r => (cell r "tax_rate", vdiv (cell r "total_emissions") (Value.num 1000000))) ∧
          s.2.2 = g.map (fun r => (cell r "tax_rate", vdiv (cell r "total_cost_with_tax") (Value.num 1000)))) ∧
    (∀ (t : Table) (ch : CapChart), plot_cap_sweep t = .ok (some ch) →
      ch.invertX = true ∧ (ch.series.map (fun s => s.1)).Nodup ∧
      ∀ s ∈ ch.series, ∃ g, g.Perm (optGroup t s.1) ∧ List.Sorted (keyLe "cap_value" false) g ∧
        s.2.2 = g.map (fun r => (capPct (cell r "cap_value") s.2.1,
                                 vdiv (cell r "total_cost_without_tax") (Value.num 1000)))) := by
  constructor
  · intro t ch h
    have hloop := tax_ok_elim t ch h
    obtain ⟨hsub, hmem⟩ := taxLoop_sound _ _ _ hloop
    refine ⟨hsub.nodup (uniqueList_nodup _), ?_⟩
    intro s hs
    obtain ⟨-, g, hperm, hsort, he, hc⟩ := hmem s hs
    refine ⟨?_, ?_, g, hperm, hsort, he, hc⟩
    · rw [he]
      exact List.pairwise_map.mpr hsort
    · rw [hc]
      exact List.pairwise_map.mpr hsort
  · intro t ch h
    obtain ⟨hinv, hloop⟩ := cap_ok_elim t ch h
    obtain ⟨hsub, hmem⟩ := capLoop_sound _ _ _ hloop
    refine ⟨hinv, hsub.nodup (uniqueList_nodup _), ?_⟩
    intro s hs
    obtain ⟨-, -, g, hperm, hsort, hc⟩ := hmem s hs
    exact ⟨g, hperm, hsort, hc⟩

/-- C8 witness: the concrete tax- and cap-sweep charts satisfy the
grouping and ordering description. -/
theorem c8_witness :
    (plot_tax_sweep exTax = .ok (some exTaxCh) ∧
     (exTaxCh.map (fun s => s.1)).Nodup ∧
     ∀ s ∈ exTaxCh, ptsSorted true s.2.1 ∧ ptsSorted true s.2.2 ∧
       ∃ g, g.Perm (optGroup exTax s.1) ∧ List.Sorted (keyLe "tax_rate" true) g ∧
         s.2.1 = g.map (fun r => (cell r "tax_rate", vdiv (cell r "total_emissions") (Value.num 1000000))) ∧
         s.2.2 = g.map (fun r => (cell r "tax_rate", vdiv (cell r "total_cost_with_tax") (Value.num 1000)))) ∧
    (plot_cap_sweep exCap = .ok (some exCapCh) ∧ exCapCh.invertX = true) := by
  have ht : plot_tax_sweep exTax = .ok (some exTaxCh) := by decide
  have hc : plot_cap_sweep exCap = .ok (some exCapCh) := by decide
  have h1 := c8_sweep_ordering.1 exTax exTaxCh ht
  have h2 := c8_sweep_ordering.2 exCap exCapCh hc
  exact ⟨⟨ht, h1.1, h1.2⟩, hc, h2.1⟩

/-- C10 (confirmed): in the tax-sweep, cap-sweep and hybrid charts, every
rendered series or panel belongs to an instance whose OPTIMAL group has
at least two rows; an instance with exactly one OPTIMAL row contributes
no series, points, or panel. -/
theorem c10_singleton_groups :
    (∀ (t : Table) (ch : TaxChart), plot_tax_sweep t = .ok (some ch) →
       ∀ s ∈ ch, 2 ≤ (optGroup t s.1).length) ∧
    (∀ (t : Table) (ch : CapChart), plot_cap_sweep t = .ok (some ch) →
       ∀ s ∈ ch.series, 2 ≤ (optGroup t s.1).length) ∧
    (∀ (t : Table) (ch : HybridChart), plot_hybrid_strategy t = .ok (some ch) →
       ∀ s ∈ ch, 2 ≤ (optGroup t s.1).length) ∧
    (∀ (t : Table) (ch : TaxChart) (inst : Value), plot_tax_sweep t = .ok (some ch) →
       (optGroup t inst).length = 1 → ∀ s ∈ ch, s.1 ≠ inst) ∧
    (∀ (t : Table) (ch : CapChart) (inst : Value), plot_cap_sweep t = .ok (some ch) →
       (optGroup t inst).length = 1 → ∀ s ∈ ch.series, s.1 ≠ inst) ∧
    (∀ (t : Table) (ch : HybridChart) (inst : Value), plot_hybrid_strategy t = .ok (some ch) →
       (optGroup t inst).length = 1 → ∀ s ∈ ch, s.1 ≠ inst) := by
  have htax : ∀ (t : Table) (ch : TaxChart), plot_tax_sweep t = .ok (some ch) →
      ∀ s ∈ ch, 2 ≤ (optGroup t s.1).length := by
    intro t ch h s hs
    exact ((taxLoop_sound _ _ _ (tax_ok_elim t ch h)).2 s hs).1
  have hcap : ∀ (t : Table) (ch : CapChart), plot_cap_sweep t = .ok (some ch) →
      ∀ s ∈ ch.series, 2 ≤ (optGroup t s.1).length := by
    intro t ch h s hs
    exact ((capLoop_sound _ _ _ (cap_ok_elim t ch h).2).2 s hs).1
  have hhyb : ∀ (t : Table) (ch : HybridChart), plot_hybrid_strategy t = .ok (some ch) →
      ∀ s ∈ ch, 2 ≤ (optGroup t s.1).length := by
    intro t ch h s hs
    exact ((hybridLoop_sound _ _ _ (hybrid_ok_elim t ch h)).2 s hs).1
  refine ⟨htax, hcap, hhyb, ?_, ?_, ?_⟩
  · intro t ch inst h h1 s hs heq
    have := htax t ch h s hs
    rw [heq, h1] at this
    omega
  · intro t ch inst h h1 s hs heq
    have := hcap t ch h s hs
    rw [heq, h1] at this
    omega
  · intro t ch inst h h1 s hs heq
    have := hhyb t ch h s hs
    rw [heq, h1] at this
    omega

/-- C10 witness: at concrete sweep tables each containing a singleton
instance group, every rendered series' group has at least two rows and
the singleton instances are excluded. -/
theorem c10_witness :
    (plot_tax_sweep exTax = .ok (some exTaxCh) ∧
      ∀ s ∈ exTaxCh, 2 ≤ (optGroup exTax s.1).length) ∧
    (plot_cap_sweep exCap = .ok (some exCapCh) ∧
      ∀ s ∈ exCapCh.series, 2 ≤ (optGroup exCap s.1).length) ∧
    (plot_hybrid_strategy exHyb = .ok (some exHybCh) ∧
      ∀ s ∈ exHybCh, 2 ≤ (optGroup exHyb s.1).length) ∧
    ((optGroup exTax (Value.str "i2")).length = 1 ∧ ∀ s ∈ exTaxCh, s.1 ≠ Value.str "i2") := by
  have ht : plot_tax_sweep exTax = .ok (some exTaxCh) := by decide
  have hc : plot_cap_sweep exCap = .ok (some exCapCh) := by decide
  have hh : plot_hybrid_strategy exHyb = .ok (some exHybCh) := by decide
  refine ⟨⟨ht, c10_singleton_groups.1 exTax exTaxCh ht⟩,
          ⟨hc, c10_singleton_groups.2.1 exCap exCapCh hc⟩,
          ⟨hh, c10_singleton_groups.2.2.1 exHyb exHybCh hh⟩,
          by decide, c10_singleton_groups.2.2.2.1 exTax exTaxCh (Value.str "i2") ht (by decide)⟩

/-- C1 counterexample: the Pareto-front builder applies no solver-status
filter.  A Pareto file whose only row carries solver status INFEASIBLE
still contributes its (Emissions / 1e6, Cost / 1e3) point to the produced
cost-emissions Pareto figure, so a non-OPTIMAL row does contribute values
to a produced chart. -/
theorem c1_counterexample :
    (∀ f ∈ exParetoFiles, ∀ r ∈ f.2.rows, cell r "solver_status" ≠ Value.str "OPTIMAL") ∧
    plot_pareto_fronts exParetoFiles =
      (some [("inst1_cost_emissions_pareto.csv", [(Value.num 2, Value.num 1)])], none) :=
  ⟨by decide, by decide⟩

/-- C1 (corrected): every builder that consumes one of the primary result
tables filters to OPTIMAL rows before any derivation, grouping or
rendering — inserting a row whose solver status is not OPTIMAL anywhere
into the table leaves each of the twelve table-based builders' results
unchanged.  (The Pareto-front builder reads its files with no status
filter; see the counterexample.) -/
theorem c1_optimal_filter (cols : List String) (pre post : List Row) (r : Row)
    (h : cell r "solver_status" ≠ Value.str "OPTIMAL") :
    plot_scalability_runtime ⟨cols, pre ++ r :: post⟩ = plot_scalability_runtime ⟨cols, pre ++ post⟩ ∧
    plot_scalability_emissions ⟨cols, pre ++ r :: post⟩ = plot_scalability_emissions ⟨cols, pre ++ post⟩ ∧
    plot_scalability_buffers ⟨cols, pre ++ r :: post⟩ = plot_scalability_buffers ⟨cols, pre ++ post⟩ ∧
    plot_tax_sweep ⟨cols, pre ++ r :: post⟩ = plot_tax_sweep ⟨cols, pre ++ post⟩ ∧
    plot_cap_sweep ⟨cols, pre ++ r :: post⟩ = plot_cap_sweep ⟨cols, pre ++ post⟩ ∧
    plot_hybrid_strategy ⟨cols, pre ++ r :: post⟩ = plot_hybrid_strategy ⟨cols, pre ++ post⟩ ∧
    plot_cost_emissions_pareto ⟨cols, pre ++ r :: post⟩ = plot_cost_emissions_pareto ⟨cols, pre ++ post⟩ ∧
    plot_strategy_comparison ⟨cols, pre ++ r :: post⟩ = plot_strategy_comparison ⟨cols, pre ++ post⟩ ∧
    plot_inventory_kpis ⟨cols, pre ++ r :: post⟩ = plot_inventory_kpis ⟨cols, pre ++ post⟩ ∧
    plot_service_time_sensitivity ⟨cols, pre ++ r :: post⟩ = plot_service_time_sensitivity ⟨cols, pre ++ post⟩ ∧
    plot_topology_comparison ⟨cols, pre ++ r :: post⟩ = plot_topology_comparison ⟨cols, pre ++ post⟩ ∧
    plot_plm_nlm_comparison ⟨cols, pre ++ r :: post⟩ = plot_plm_nlm_comparison ⟨cols, pre ++ post⟩ := by
  have hb : isOpt r = false := decide_eq_false h
  have hw : ∀ {α : Type} (k : Table → Except String α),
      withOpt ⟨cols, pre ++ r :: post⟩ k = withOpt ⟨cols, pre ++ post⟩ k :=
    fun k => withOpt_insert cols pre post r k hb
  exact ⟨hw _, hw _, hw _, hw _, hw _, hw _, hw _, hw _, hw _, hw _, hw _, hw _⟩

/-- C1 witness: inserting a concrete INFEASIBLE row changes none of the
twelve table-based builders' results. -/
theorem c1_witness :
    cell rNonOpt "solver_status" ≠ Value.str "OPTIMAL" ∧
    plot_scalability_runtime ⟨["solver_status"], [rNonOpt]⟩ =
      plot_scalability_runtime ⟨["solver_status"], []⟩ :=
  ⟨by decide, (c1_optimal_filter ["solver_status"] [] [] rNonOpt (by decide)).1⟩

/-- C2 counterexample: a loaded scalability table whose `runtime_sec`
column is missing does not merely skip the runtime chart: the KeyError
escapes the builder and aborts the whole run, so later builders never
execute. -/
theorem c2_counterexample :
    "runtime_sec" ∉ exScalMissing.cols ∧
    generateAllFigures exTablesAbort = .error "KeyError: runtime_sec" :=
  ⟨by decide, by decide⟩

/-- C2 (corrected): the absent-table and zero-OPTIMAL-rows precondition
failures are uniformly non-fatal: when every loaded table carries the
status column but no OPTIMAL row (and no Pareto files exist), every
builder skips its chart and the run completes normally with no artifact.
A required column missing from a loaded table, by contrast, aborts the
run unless that column is one of the few explicitly guarded ones (see
the counterexample). -/
theorem c2_skip_and_continue (g : Tables)
    (h1 : tableEmptyOpt g.scalability?) (h2 : tableEmptyOpt g.taxSweep?)
    (h3 : tableEmptyOpt g.capSweep?) (h4 : tableEmptyOpt g.hybrid?)
    (h5 : tableEmptyOpt g.consolidated?) (h6 : tableEmptyOpt g.svt?)
    (h7 : tableEmptyOpt g.topology?) (h8 : tableEmptyOpt g.nlm?)
    (h9 : g.paretoFiles = []) :
    generateAllFigures g = .ok [] := by
  have e1 : stepT [] "fig1" g.scalability? plot_scalability_runtime = .ok [] :=
    stepT_skip _ _ _ _ (fun tb htb => plot_scalability_runtime_skip tb (h1 tb htb).1 (h1 tb htb).2)
  have e2 : stepT [] "fig2" g.scalability? plot_scalability_emissions = .ok [] :=
    stepT_skip _ _ _ _ (fun tb htb => plot_scalability_emissions_skip tb (h1 tb htb).1 (h1 tb htb).2)
  have e3 : stepT [] "fig3" g.scalability? plot_scalability_buffers = .ok [] :=
    stepT_skip _ _ _ _ (fun tb htb => plot_scalability_buffers_skip tb (h1 tb htb).1 (h1 tb htb).2)
  have e4 : stepT [] "fig4" g.taxSweep? plot_tax_sweep = .ok [] :=
    stepT_skip _ _ _ _ (fun tb htb => plot_tax_sweep_skip tb (h2 tb htb).1 (h2 tb htb).2)
  have e5 : stepT [] "fig5" g.capSweep? plot_cap_sweep = .ok [] :=
    stepT_skip _ _ _ _ (fun tb htb => plot_cap_sweep_skip tb (h3 tb htb).1 (h3 tb htb).2)
  have e6 : stepT [] "fig6" g.hybrid? plot_hybrid_strategy = .ok [] :=
    stepT_skip _ _ _ _ (fun tb htb => plot_hybrid_strategy_skip tb (h4 tb htb).1 (h4 tb htb).2)
  have e7 : stepT [] "fig7" g.consolidated? plot_cost_emissions_pareto = .ok [] :=
    stepT_skip _ _ _ _ (fun tb htb => plot_cost_emissions_pareto_skip tb (h5 tb htb).1 (h5 tb htb).2)
  have e8 : stepT [] "fig8" g.consolidated? plot_strategy_comparison = .ok [] :=
    stepT_skip _ _ _ _ (fun tb htb => plot_strategy_comparison_skip tb (h5 tb htb).1 (h5 tb htb).2)
  have e9 : stepT [] "fig9" g.consolidated? plot_inventory_kpis = .ok [] :=
    stepT_skip _ _ _ _ (fun tb htb => plot_inventory_kpis_skip tb (h5 tb htb).1 (h5 tb htb).2)
  have e10 : stepT [] "fig10" g.svt? plot_service_time_sensitivity = .ok [] :=
    stepT_skip _ _ _ _ (fun tb htb => plot_service_time_sensitivity_skip tb (h6 tb htb).1 (h6 tb htb).2)
  have e11 : stepT [] "fig11" g.topology? plot_topology_comparison = .ok [] :=
    stepT_skip _ _ _ _ (fun tb htb => plot_topology_comparison_skip tb (h7 tb htb).1 (h7 tb htb).2)
  have e12 : stepT [] "fig12" g.nlm? plot_plm_nlm_comparison = .ok [] :=
    stepT_skip _ _ _ _ (fun tb htb => plot_plm_nlm_comparison_skip tb (h8 tb htb).1 (h8 tb htb).2)
  simp only [generateAllFigures, e1, e2, e3, e4, e5, e6, e7, e8, e9, e10, e11, e12, h9]
  simp [plot_pareto_fronts]

/-- C2 witness: a repository whose only loaded table has no OPTIMAL row
completes the run with every chart skipped. -/
theorem c2_witness : generateAllFigures exTablesEmpty = .ok [] := by
  refine c2_skip_and_continue exTablesEmpty ?_ ?_ ?_ ?_ ?_ ?_ ?_ ?_ rfl
  · intro tb htb
    cases htb
    exact ⟨by decide, by decide⟩
  all_goals intro tb htb; cases htb

theorem sizedRows_insert (A B : List Row) (r : Row)
    (hx : vExtract (cell r "instance_id") = none) :
    sizedRows (A ++ r :: B) = sizedRows (A ++ B) := by
  unfold sizedRows
  simp [List.filterMap_append, List.filterMap_cons, hx]

theorem runtime_core_insert (cols : List String) (A B : List Row) (r : Row)
    (hx : vExtract (cell r "instance_id") = none) (hne : A ++ B ≠ []) :
    plot_scalability_runtime_core ⟨cols, A ++ r :: B⟩ =
      plot_scalability_runtime_core ⟨cols, A ++ B⟩ := by
  have hE1 : (A ++ r :: B : List Row).isEmpty = false := by
    simp [List.isEmpty_iff]
  have hE2 : (A ++ B : List Row).isEmpty = false := by
    simp [List.isEmpty_iff, hne]
  simp only [plot_scalability_runtime_core, needCol, sizedRows_insert A B r hx, hE1, hE2]

theorem emissions_core_insert (cols : List String) (A B : List Row) (r : Row)
    (hx : vExtract (cell r "instance_id") = none) (hne : A ++ B ≠ []) :
    plot_scalability_emissions_core ⟨cols, A ++ r :: B⟩ =
      plot_scalability_emissions_core ⟨cols, A ++ B⟩ := by
  have hE1 : (A ++ r :: B : List Row).isEmpty = false := by
    simp [List.isEmpty_iff]
  have hE2 : (A ++ B : List Row).isEmpty = false := by
    simp [List.isEmpty_iff, hne]
  simp only [plot_scalability_emissions_core, needCol, sizedRows_insert A B r hx, hE1, hE2]

/-- C4 (confirmed): the numeric-size extraction is a pure function of the
identifier string, and a row whose identifier does not match the capture
pattern is excluded from the size-based charts rather than defaulted:
inserting an OPTIMAL row with a non-matching identifier anywhere into a
table whose OPTIMAL set is nonempty leaves the runtime and emissions
scalability charts unchanged. -/
theorem c4_extract_pure_exclusion :
    (∀ v w : Value, v = w → vExtract v = vExtract w) ∧
    (∀ (cols : List String) (pre post : List Row) (r : Row),
      cell r "solver_status" = Value.str "OPTIMAL" →
      vExtract (cell r "instance_id") = none →
      optRows ⟨cols, pre ++ post⟩ ≠ [] →
      plot_scalability_runtime ⟨cols, pre ++ r :: post⟩ =
        plot_scalability_runtime ⟨cols, pre ++ post⟩ ∧
      plot_scalability_emissions ⟨cols, pre ++ r :: post⟩ =
        plot_scalability_emissions ⟨cols, pre ++ post⟩) := by
  refine ⟨fun v w h => h ▸ rfl, ?_⟩
  intro cols pre post r hopt hx hne
  have hr : isOpt r = true := by unfold isOpt; rw [hopt]; simp
  have hfilter : optRows ⟨cols, pre ++ r :: post⟩ =
      pre.filter isOpt ++ r :: post.filter isOpt := by
    unfold optRows
    simp [List.filter_append, List.filter_cons, hr]
  have hfilter2 : optRows ⟨cols, pre ++ post⟩ = pre.filter isOpt ++ post.filter isOpt := by
    unfold optRows
    simp [List.filter_append]
  have hne' : pre.filter isOpt ++ post.filter isOpt ≠ [] := by
    rw [← hfilter2]
    exact hne
  constructor
  · unfold plot_scalability_runtime withOpt
    by_cases hS : "solver_status" ∈ cols
    · rw [if_pos hS, if_pos hS, hfilter, hfilter2]
      exact runtime_core_insert cols (pre.filter isOpt) (post.filter isOpt) r hx hne'
    · rw [if_neg hS, if_neg hS]
  · unfold plot_scalability_emissions withOpt
    by_cases hS : "solver_status" ∈ cols
    · rw [if_pos hS, if_pos hS, hfilter, hfilter2]
      exact emissions_core_insert cols (pre.filter isOpt) (post.filter isOpt) r hx hne'
    · rw [if_neg hS, if_neg hS]

/-- C4 witness: inserting the OPTIMAL row with identifier `control`
(which does not match `bom_(\d+)`) next to a matching row changes
neither scalability chart. -/
theorem c4_witness :
    vExtract (cell rControl "instance_id") = none ∧
    plot_scalability_runtime ⟨colsScal, [rBom10, rControl]⟩ =
      plot_scalability_runtime ⟨colsScal, [rBom10]⟩ :=
  ⟨by decide,
   (c4_extract_pure_exclusion.2 colsScal [rBom10] [] rControl
      (by decide) (by decide) (by decide)).1⟩

theorem strat_core_ok (t : Table)
    (hstr : "strategy" ∈ t.cols) (hwt : "total_cost_with_tax" ∈ t.cols)
    (hwo : "total_cost_without_tax" ∈ t.cols)
    (hem : "total_emissions" ∈ t.cols) (hbc : "buffer_count" ∈ t.cols)
    (h2 : 2 ≤ (existingStrategies (optRows t)).length) :
    plot_strategy_comparison_core ⟨t.cols, optRows t⟩ =
      .ok (some ⟨existingStrategies (optRows t),
        (existingStrategies (optRows t)).map (costSeries ⟨t.cols, optRows t⟩),
        (existingStrategies (optRows t)).map (fun s =>
          (dropna (stratVals ⟨t.cols, optRows t⟩ s "total_emissions")).map (fun v => vdiv v (Value.num 1000000))),
        (existingStrategies (optRows t)).map (fun s =>
          dropna (stratVals ⟨t.cols, optRows t⟩ s "buffer_count"))⟩) := by
  have hne : optRows t ≠ [] := by
    intro hnil
    rw [hnil] at h2
    simp [existingStrategies, knownStrategies] at h2
  have hE : (optRows t).isEmpty = false := by simp [List.isEmpty_iff, hne]
  simp only [plot_strategy_comparison_core, needCol]
  rw [if_neg (by simp [hE, hstr]), if_neg (Nat.not_lt.mpr h2), if_pos hwt,
      costLoop_ok ⟨t.cols, optRows t⟩ hwo]
  simp only [Except.bind]
  rw [if_pos hem, if_pos hbc]

theorem strat_core_none (t : Table)
    (h2 : ¬ 2 ≤ (existingStrategies (optRows t)).length) :
    plot_strategy_comparison_core ⟨t.cols, optRows t⟩ = .ok none := by
  simp only [plot_strategy_comparison_core]
  by_cases hpre : (optRows t).isEmpty ∨ "strategy" ∉ t.cols
  · rw [if_pos hpre]
  · rw [if_neg hpre, if_pos (Nat.not_le.mp h2)]

/-- C6 (corrected): given the consolidated table's cost, emissions and
buffer-count columns are all present, the strategy-comparison chart is
produced iff at least two of the three known strategy labels occur among
the OPTIMAL rows; each present strategy's cost box-plot series comes
from the tax-inclusive cost column unless that strategy's values there
are entirely missing, in which case the tax-exclusive column is used.
(Without the column-presence proviso the claim fails: see the
counterexample, where a missing cost column aborts the run instead.) -/
theorem c6_strategy_gate (t : Table)
    (hS : "solver_status" ∈ t.cols) (hstr : "strategy" ∈ t.cols)
    (hwt : "total_cost_with_tax" ∈ t.cols) (hwo : "total_cost_without_tax" ∈ t.cols)
    (hem : "total_emissions" ∈ t.cols) (hbc : "buffer_count" ∈ t.cols) :
    ((∃ ch, plot_strategy_comparison t = .ok (some ch)) ↔
      2 ≤ (existingStrategies (optRows t)).length) ∧
    (∀ ch, plot_strategy_comparison t = .ok (some ch) →
      ch.strategies = existingStrategies (optRows t) ∧
      ch.costData = (existingStrategies (optRows t)).map (costSeries ⟨t.cols, optRows t⟩)) := by
  have hplot : plot_strategy_comparison t = plot_strategy_comparison_core ⟨t.cols, optRows t⟩ := by
    unfold plot_strategy_comparison withOpt
    rw [if_pos hS]
  by_cases h2 : 2 ≤ (existingStrategies (optRows t)).length
  · have hres := strat_core_ok t hstr hwt hwo hem hbc h2
    constructor
    · exact ⟨fun _ => h2, fun _ => ⟨_, by rw [hplot, hres]⟩⟩
    · intro ch hch
      rw [hplot, hres] at hch
      injection hch with hch
      injection hch with hch
      rw [← hch]
      exact ⟨rfl, rfl⟩
  · have hres := strat_core_none t h2
    constructor
    · constructor
      · rintro ⟨ch, hch⟩
        rw [hplot, hres] at hch
        simp at hch
      · intro h2'
        exact absurd h2' h2
    · intro ch hch
      rw [hplot, hres] at hch
      simp at hch

/-- C6 counterexample: a consolidated table whose OPTIMAL rows carry two
known strategy labels but which lacks the tax-inclusive cost column does
not produce the chart — the builder raises a KeyError instead of
rendering, falsifying the unconditional iff. -/
theorem c6_counterexample :
    2 ≤ (existingStrategies (optRows exSC)).length ∧
    plot_strategy_comparison exSC = .error "KeyError: total_cost_with_tax" :=
  ⟨by decide, by decide⟩

/-- C6 witness: at a concrete full-column consolidated table with
EMISTAXE and EMISCAP rows the chart is produced, and the EMISCAP series
(whose tax-inclusive costs are all missing) falls back to the
tax-exclusive column. -/
theorem c6_witness :
    2 ≤ (existingStrategies (optRows exSC2)).length ∧
    (∃ ch, plot_strategy_comparison exSC2 = .ok (some ch)) :=
  ⟨by decide,
   (c6_strategy_gate exSC2 (by decide) (by decide) (by decide) (by decide)
      (by decide) (by decide)).1.mpr (by decide)⟩

/-- C7 counterexample: with group improvement values 10 and missing, the
code's panel bar is 10 (pandas mean skips the missing value), not the 5
that treating the missing value as zero would give: zero is substituted
only when the whole mean is missing. -/
theorem c7_counterexample :
    plot_inventory_kpis exInv = .ok (some exInvCh) ∧
    exInvCh.imprPanel = some [Value.num 10] ∧
    specImprMean [Value.num 10, Value.nan] = Value.num 5 ∧
    Value.num (10 : ℚ) ≠ Value.num 5 :=
  ⟨by decide, by decide, by decide, by decide⟩

/-- C7 (corrected): in the inventory-KPIs chart the per-strategy values
are arithmetic means over the non-missing values; the secondary
improvement panel is drawn iff the improvement column exists; and a
strategy's panel bar is its group's mean with missing values skipped,
zero being substituted only when the mean itself is missing (all values
missing). -/
theorem c7_inventory_kpis (t : Table) (ch : InvChart)
    (h : plot_inventory_kpis t = .ok (some ch)) :
    (ch.imprPanel.isSome ↔ "DIO_improvement_pct" ∈ t.cols) ∧
    ch.dioMeans = ch.strategies.map (fun s =>
      seriesMean (groupValsBy ⟨t.cols, optRows t⟩ "strategy" s "DIO")) ∧
    ∀ l, ch.imprPanel = some l →
      l = ch.strategies.map (fun s =>
        zeroIfNan (seriesMean (groupValsBy ⟨t.cols, optRows t⟩ "strategy" s "DIO_improvement_pct"))) := by
  have hcore := of_withOpt_ok h
  unfold plot_inventory_kpis_core at hcore
  split at hcore
  case isTrue => simp at hcore
  case isFalse hpre =>
    simp only [needCol] at hcore
    split at hcore
    case isFalse => simp at hcore
    case isTrue h1 =>
      injection hcore with hcore
      injection hcore with hcore
      rw [← hcore]
      by_cases hcol : "DIO_improvement_pct" ∈ t.cols
      · rw [if_pos hcol]
        refine ⟨by simp [hcol], rfl, ?_⟩
        intro l hl
        injection hl with hl
        rw [← hl]
      · rw [if_neg hcol]
        refine ⟨by simp [hcol], rfl, ?_⟩
        intro l hl
        cases hl

/-- C7 witness: the concrete inventory chart's improvement panel exists
exactly because the improvement column does. -/
theorem c7_witness :
    plot_inventory_kpis exInv = .ok (some exInvCh) ∧
    (exInvCh.imprPanel.isSome ↔ "DIO_improvement_pct" ∈ exInv.cols) :=
  ⟨by decide, (c7_inventory_kpis exInv exInvCh (by decide)).1⟩

